import Mathlib

/-!
# Verification of the bundle_adjust core (src/asp/Tools/bundle_adjust.cc)

This file gives a shallow embedding, in Lean 4, of the parts of the
`bundle_adjust` tool that the specification's claims are about:

* the residual-graph builder of `do_ba_ceres_one_pass` (which residual
  blocks are added, in which order, and with which pixel sigmas);
* the residual-count check of `compute_residuals`;
* the outlier-update step `update_outliers` together with
  `compute_mean_residuals_at_xyz`;
* the pass loop of `do_ba_ceres` (outlier-set evolution and the
  `min_matches` abort);
* the solver-size configuration of `do_ba_ceres_one_pass`;
* the robust-loss selection `get_loss_function` and the cost-function
  dispatch of `do_ba_with_model`;
* `apply_rigid_transform` and the similarity round trip.

Real-valued quantities of the program are modelled over `ℚ` (so that all
definitions are executable and decidable) except for the similarity
transform, which is modelled over `ℝ` since it quantifies over SO(3).
External collaborators (the Ceres solver, VisionWorkbench camera models,
DEM/georeference sampling, `find_outlier_brackets`) are modelled as
explicit function parameters, or, where the claim depends on their
documented behaviour, by definitions marked `Modelled from the spec:`.
-/

set_option autoImplicit false

/-- An observation of a 3D point in one camera, as iterated by the
`CameraRelationNetwork` (`crn`) double loop in `bundle_adjust.cc`:
`ipt` is `(**fiter).m_point_id`, `location` is `(**fiter).m_location`,
and `scale` is `(**fiter).m_scale` (the pixel sigma).  A `NaN` pixel
sigma (the case caught by the source's `pixel_sigma != pixel_sigma`
check) is represented by `none`. -/
structure Obs where
  ipt : ℕ
  location : ℚ × ℚ
  scale : Option (ℚ × ℚ)
deriving DecidableEq

/-- The camera relation network: for each camera index `icam`, the list of
observations `crn[icam]` in iteration order. -/
abbrev Crn := List (List Obs)

/-- The point ids of all observations in the camera-major order of the
`crn` double loop. -/
def allObsIds (crn : Crn) : List ℕ :=
  crn.flatten.map (fun ob => ob.ipt)

/-- The point ids of all observations that are not flagged as outliers, in
camera-major order: the double loop with the `skip outliers` `continue`. -/
def activeObsIds (crn : Crn) (outlier_xyz : Finset ℕ) : List ℕ :=
  (allObsIds crn).filter (fun ipt => decide (ipt ∉ outlier_xyz))

/-! ## Solver sizing (`do_ba_ceres_one_pass`, lines 1305-1315) -/

/-- The Ceres linear solver types that `bundle_adjust.cc` selects from. -/
inductive LinearSolverType
  | DENSE_SCHUR
  | SPARSE_SCHUR
  | ITERATIVE_SCHUR
deriving DecidableEq

/-- The Ceres preconditioner types relevant here; `JACOBI` is the Ceres
default, left in place unless the source assigns `SCHUR_JACOBI`. -/
inductive PreconditionerType
  | JACOBI
  | SCHUR_JACOBI
deriving DecidableEq

/-- The solver options that the sizing code of `do_ba_ceres_one_pass`
assigns. -/
structure SolverSizeOptions where
  linear_solver_type : LinearSolverType
  preconditioner_type : PreconditionerType
  use_explicit_schur_complement : Bool
deriving DecidableEq

/-- The solver-size configuration, mirroring the sequence of assignments
at lines 1306-1315 of `bundle_adjust.cc`: start from `SPARSE_SCHUR` (with
the Ceres defaults `JACOBI` preconditioner and implicit Schur complement),
then the three `if` statements in source order. -/
def set_solver_size_options (num_cameras : ℕ) : SolverSizeOptions :=
  let o := SolverSizeOptions.mk LinearSolverType.SPARSE_SCHUR PreconditionerType.JACOBI false
  let o := if num_cameras < 100 then
      SolverSizeOptions.mk LinearSolverType.DENSE_SCHUR o.preconditioner_type
        o.use_explicit_schur_complement
    else o
  let o := if 3500 < num_cameras then
      SolverSizeOptions.mk LinearSolverType.ITERATIVE_SCHUR PreconditionerType.SCHUR_JACOBI true
    else o
  let o := if 7000 < num_cameras then
      SolverSizeOptions.mk o.linear_solver_type o.preconditioner_type false
    else o
  o

/-! ## Robust-loss selection (`get_loss_function`, lines 171-187, and the
cost-function dispatch of `do_ba_with_model`, lines 1653-1669) -/

/-- The Ceres loss objects that `get_loss_function` can construct; the
source returns `NULL` for `l2`, which is modelled as `none` at the use
site. -/
inductive CeresLoss
  | HuberLoss (th : ℚ)
  | CauchyLoss (th : ℚ)
  | SoftLOneLoss (th : ℚ)
  | TrivialLoss
deriving DecidableEq

/-- `get_loss_function` of `bundle_adjust.cc`: the `if`/`else if` chain on
`opt.cost_function` (already lower-cased by `handle_arguments`).  `l2`
yields a `NULL` loss (`none`); an unrecognised name throws
`ArgumentErr`, modelled as `Except.error`. -/
def get_loss_function (cost_function : String) (robust_threshold : ℚ) :
    Except String (Option CeresLoss) :=
  if cost_function = "l2" then Except.ok none
  else if cost_function = "huber" then Except.ok (some (CeresLoss.HuberLoss robust_threshold))
  else if cost_function = "cauchy" then Except.ok (some (CeresLoss.CauchyLoss robust_threshold))
  else if cost_function = "l1" then Except.ok (some (CeresLoss.SoftLOneLoss robust_threshold))
  else Except.error ("Unknown cost function: " ++ cost_function)

/-- The outer cost-function dispatch of `do_ba_with_model`: which values
of `opt.cost_function` are accepted (anything else throws
`ArgumentErr`). -/
def do_ba_with_model_accepts (cost_function : String) : Bool :=
  if cost_function = "cauchy" then true
  else if cost_function = "pseudohuber" then true
  else if cost_function = "huber" then true
  else if cost_function = "l1" then true
  else if cost_function = "l2" then true
  else false

/-! ## The pass loop's break/abort logic (`do_ba_ceres`, lines 1474-1485) -/

/-- What the tail of one iteration of the pass loop of `do_ba_ceres` does
after `do_ba_ceres_one_pass` returns. -/
inductive PassCheckResult
  | exitLoop
  | abortRun
  | continueRun
deriving DecidableEq

/-- The control flow at the end of one pass of `do_ba_ceres`
(lines 1467-1484): with `last_pass = (pass == num_ba_passes - 1)`, a
non-last pass that removed no new outliers breaks out of the loop;
otherwise, when more than one pass is configured and
`num_points - outlier_xyz.size() < min_matches`, the run aborts with
`ArgumentErr`. -/
def after_pass_check (num_ba_passes pass num_new_outliers : ℕ)
    (num_points num_outliers : ℕ) (min_matches : ℤ) : PassCheckResult :=
  let last_pass := pass = num_ba_passes - 1
  if ¬ last_pass ∧ num_new_outliers = 0 then PassCheckResult.exitLoop
  else
    let num_points_remaining : ℤ := (num_points : ℤ) - (num_outliers : ℤ)
    if 1 < num_ba_passes ∧ num_points_remaining < min_matches then PassCheckResult.abortRun
    else PassCheckResult.continueRun

/-! ## The residual-graph builder (`do_ba_ceres_one_pass`, lines 901-1259)

The builder is modelled as producing the ordered list of residual blocks
that are handed to `ceres::Problem::AddResidualBlock`.  Modelled from the
spec: Ceres evaluates residuals "ordered exactly by the order in which
residuals were added", so the `blocks` list below, read left to right, is
the block order of the evaluated residual vector. -/

/-- One residual block, identified by the data that selects its cost
function in the source: the reprojection block also records the
`pixel_sigma` actually passed to `add_residual_block` (after the NaN fix
and the overlap up-weighting). -/
inductive ResidualBlock
  | reprojection (icam ipt : ℕ) (pixel_sigma : ℚ × ℚ)
  | gcpAnchor (ipt : ℕ)
  | cameraPrior (icam : ℕ)
  | rotTransPrior (icam : ℕ)
  | dispTerrain (iref : ℕ)
deriving DecidableEq

/-- The state of a `ceres::Problem` that the claims observe: the residual
blocks in the order they were added. -/
structure CeresProblem where
  blocks : List ResidualBlock
deriving DecidableEq

/-- `problem.AddResidualBlock(...)`: appends one block. -/
def addResidualBlock (p : CeresProblem) (b : ResidualBlock) : CeresProblem :=
  CeresProblem.mk (p.blocks ++ [b])

/-- The NaN bugfix at lines 922-924: `if (pixel_sigma != pixel_sigma)
pixel_sigma = Vector2(1, 1);`.  A NaN sigma is modelled by `none`. -/
def fix_nan_sigma (scale : Option (ℚ × ℚ)) : ℚ × ℚ :=
  match scale with
  | none => (1, 1)
  | some s => s

/-- `count_map[point]`: how many non-outlier observations the point with
id `ipt` has (lines 873-884; the map is only consulted when
`overlap_exponent > 0`). -/
def obsCount (crn : Crn) (outlier_xyz : Finset ℕ) (ipt : ℕ) : ℕ :=
  (activeObsIds crn outlier_xyz).count ipt

/-- The pixel sigma actually used for a reprojection block: the NaN fix,
then (lines 931-937) division by `delta = pow(count_map[point] - 1.0, p)`
when `overlap_exponent > 0` and the point is seen more than once.  The
real-valued `pow` of the source is passed in as `powFn`. -/
def obs_pixel_sigma (overlap_exponent : ℚ) (powFn : ℚ → ℚ → ℚ) (count : ℕ)
    (scale : Option (ℚ × ℚ)) : ℚ × ℚ :=
  let ps := fix_nan_sigma scale
  if 0 < overlap_exponent ∧ 1 < count then
    let delta := powFn ((count : ℚ) - 1) overlap_exponent
    (ps.1 / delta, ps.2 / delta)
  else ps

/-- The residual blocks added by `do_ba_ceres_one_pass`, in source order:

1. the reprojection loop over cameras and their observations
   (lines 903-979), skipping outlier points;
2. the ground-control-point loop (lines 985-1016), skipping non-GCP
   points and outliers;
3. the camera-constraint loop (lines 1020-1037), iff `camera_weight > 0`;
4. the rotation/translation-constraint loop (lines 1042-1057), iff
   `rotation_weight > 0 || translation_weight > 0`;
5. the reference-terrain loop (lines 1070-1259); which reference points
   pass its projection/disparity acceptance tests depends on external
   camera models and rasters, so the accepted points (`reference_vec`)
   are a parameter, given as a list of indices in acceptance order (empty
   when no reference terrain is configured). -/
def do_ba_ceres_one_pass_blocks (crn : Crn) (outlier_xyz gcpSet : Finset ℕ)
    (num_points num_cameras : ℕ)
    (camera_weight rotation_weight translation_weight overlap_exponent : ℚ)
    (powFn : ℚ → ℚ → ℚ) (reference_vec : List ℕ) : CeresProblem :=
  let problem := CeresProblem.mk []
  let problem := crn.enum.foldl
    (fun pb ic =>
      ic.2.foldl
        (fun pb2 ob =>
          if ob.ipt ∈ outlier_xyz then pb2
          else addResidualBlock pb2
            (ResidualBlock.reprojection ic.1 ob.ipt
              (obs_pixel_sigma overlap_exponent powFn (obsCount crn outlier_xyz ob.ipt)
                ob.scale)))
        pb)
    problem
  let problem := (List.range num_points).foldl
    (fun pb ipt =>
      if ipt ∉ gcpSet then pb
      else if ipt ∈ outlier_xyz then pb
      else addResidualBlock pb (ResidualBlock.gcpAnchor ipt))
    problem
  let problem := if 0 < camera_weight then
      (List.range num_cameras).foldl
        (fun pb icam => addResidualBlock pb (ResidualBlock.cameraPrior icam)) problem
    else problem
  let problem := if 0 < rotation_weight ∨ 0 < translation_weight then
      (List.range num_cameras).foldl
        (fun pb icam => addResidualBlock pb (ResidualBlock.rotTransPrior icam)) problem
    else problem
  let problem := reference_vec.foldl
    (fun pb iref => addResidualBlock pb (ResidualBlock.dispTerrain iref)) problem
  problem

/-- The five segments of the residual order as the spec states them:
reprojection blocks (camera-major, per-observation within each camera),
then GCP anchors, then camera priors (iff `camera_weight > 0`), then
rotation/translation priors (iff a rotation or translation weight is
positive), then disparity-terrain residuals. -/
def spec_residual_order (crn : Crn) (outlier_xyz gcpSet : Finset ℕ)
    (num_points num_cameras : ℕ)
    (camera_weight rotation_weight translation_weight overlap_exponent : ℚ)
    (powFn : ℚ → ℚ → ℚ) (reference_vec : List ℕ) : List ResidualBlock :=
  (crn.enum.map (fun ic =>
      (ic.2.filter (fun ob => decide (ob.ipt ∉ outlier_xyz))).map
        (fun ob => ResidualBlock.reprojection ic.1 ob.ipt
          (obs_pixel_sigma overlap_exponent powFn (obsCount crn outlier_xyz ob.ipt)
            ob.scale)))).flatten
  ++ ((List.range num_points).filter
        (fun ipt => decide (ipt ∈ gcpSet ∧ ipt ∉ outlier_xyz))).map ResidualBlock.gcpAnchor
  ++ (if 0 < camera_weight then (List.range num_cameras).map ResidualBlock.cameraPrior else [])
  ++ (if 0 < rotation_weight ∨ 0 < translation_weight then
        (List.range num_cameras).map ResidualBlock.rotTransPrior
      else [])
  ++ reference_vec.map ResidualBlock.dispTerrain

/-! ## The residual-count check (`compute_residuals`, lines 382-419) -/

/-- Each reprojection (and disparity-terrain) residual has two
components. -/
def PIXEL_SIZE : ℕ := 2

/-- The length verification of `compute_residuals` (lines 405-418): the
expected count is accumulated in source order — GCP residuals times
`num_point_params`, the per-camera residual counts times `PIXEL_SIZE`,
one camera-parameter block per camera iff `camera_weight > 0`, another
iff a rotation or translation weight is positive, and two per in-range
reference point — and a mismatch with the evaluated vector's length
throws `LogicErr`. -/
def compute_residuals_check (camera_weight rotation_weight translation_weight : ℚ)
    (num_cameras num_camera_params num_point_params : ℕ)
    (cam_residual_counts : List ℕ) (num_gcp_residuals num_reference num_residuals : ℕ) :
    Except String Unit :=
  let e := num_gcp_residuals * num_point_params
  let e := e + (cam_residual_counts.map (fun c => c * PIXEL_SIZE)).sum
  let e := if 0 < camera_weight then e + num_cameras * num_camera_params else e
  let e := if 0 < rotation_weight ∨ 0 < translation_weight then
      e + num_cameras * num_camera_params
    else e
  let e := e + num_reference * PIXEL_SIZE
  if e ≠ num_residuals then Except.error "LogicErr: unexpected residual count"
  else Except.ok ()

/-! ## Per-point mean residuals and the outlier update
(`compute_mean_residuals_at_xyz`, lines 279-329, and `update_outliers`,
lines 572-682) -/

/-- The reprojection part of a loss-free residual vector, paired with the
point id of each (non-outlier) observation in the camera-major order in
which the blocks were added: entry `(ipt, (ex, ey))`.  This is the pairing
the `residual_index` walk of `compute_mean_residuals_at_xyz`
performs. -/
def residual_entries (crn : Crn) (outlier_xyz : Finset ℕ)
    (residuals : List (ℚ × ℚ)) : List (ℕ × (ℚ × ℚ)) :=
  (activeObsIds crn outlier_xyz).zip residuals

/-- The accumulation loop of `compute_mean_residuals_at_xyz`: for each
observation, add `(fabs(errorX) + fabs(errorY)) / 2` to the point's sum
and bump the point's observation count.  (The final NaN marking of
outlier entries is omitted: every consumer of the result skips
outliers.) -/
def accum_mean_residuals (entries : List (ℕ × (ℚ × ℚ))) : (ℕ → ℚ) × (ℕ → ℕ) :=
  entries.foldl
    (fun acc ent =>
      (Function.update acc.1 ent.1 (acc.1 ent.1 + (|ent.2.1| + |ent.2.2|) / 2),
       Function.update acc.2 ent.1 (acc.2 ent.1 + 1)))
    (fun _ => 0, fun _ => 0)

/-- The mean residual of a point: accumulated sum divided by the number of
its observations. -/
def mean_residual_at (entries : List (ℕ × (ℚ × ℚ))) (ipt : ℕ) : ℚ :=
  (accum_mean_residuals entries).1 ipt / ((accum_mean_residuals entries).2 ipt : ℚ)

/-- The spec's reading of the per-point residual: the list of
`(|ex| + |ey|) / 2` values over the point's observations. -/
def point_obs_errors (entries : List (ℕ × (ℚ × ℚ))) (ipt : ℕ) : List ℚ :=
  (entries.filter (fun ent => decide (ent.1 = ipt))).map
    (fun ent => (|ent.2.1| + |ent.2.2|) / 2)

/-- The spec's per-point residual `r_i`: the mean over the point's
observations of `(|ex| + |ey|) / 2`. -/
def r_spec (entries : List (ℕ × (ℚ × ℚ))) (ipt : ℕ) : ℚ :=
  (point_obs_errors entries ipt).sum / ((point_obs_errors entries ipt).length : ℚ)

/-- The `was_added` dedup of `update_outliers` (lines 608-631): keep the
first occurrence of each id. -/
def first_occurrences : List ℕ → Finset ℕ → List ℕ
  | [], _ => []
  | p :: rest, seen =>
    if p ∈ seen then first_occurrences rest seen
    else p :: first_occurrences rest (insert p seen)

/-- `update_outliers` (lines 572-682).  The problem's residual evaluation
(`problem.Evaluate` behind `compute_residuals`) is abstracted as
`evalResiduals : Bool → List (ℚ × ℚ)`, mapping the `apply_loss_function`
flag to the reprojection part of the residual vector; the source fixes
the flag to `false` (line 588), i.e. a loss-free evaluation.
`vw::math::find_outlier_brackets` is an external collaborator, abstracted
as `fb residuals pct factor = (b, e)`.  The steps are:

* mean residual and observation count per point;
* collect `actual_residuals`: means of the non-outlier, non-GCP points,
  first occurrence each, in camera-major order;
* `(b, e) = find_outlier_brackets(actual_residuals, 1 - p0/100, factor)`
  and the clamp `e = min(max(e, max_pix1), max_pix2)`;
* re-walk the observations and insert every non-outlier, non-GCP point
  with mean residual `> e` into the outlier set. -/
def update_outliers (crn : Crn) (gcpSet : Finset ℕ)
    (p0 factor max_pix1 max_pix2 : ℚ)
    (fb : List ℚ → ℚ → ℚ → ℚ × ℚ)
    (evalResiduals : Bool → List (ℚ × ℚ))
    (outlier_xyz : Finset ℕ) : Finset ℕ :=
  let residuals := evalResiduals false
  let entries := residual_entries crn outlier_xyz residuals
  let actual_residuals :=
    (first_occurrences
        ((activeObsIds crn outlier_xyz).filter (fun ipt => decide (ipt ∉ gcpSet))) ∅).map
      (fun ipt => mean_residual_at entries ipt)
  let pct := 1 - p0 / 100
  let be := fb actual_residuals pct factor
  let e := min (max be.2 max_pix1) max_pix2
  (allObsIds crn).foldl
    (fun acc ipt =>
      if ipt ∈ outlier_xyz then acc
      else if ipt ∈ gcpSet then acc
      else if e < mean_residual_at entries ipt then insert ipt acc
      else acc)
    outlier_xyz

/-- The outlier set after `k` passes of the loop of `do_ba_ceres`: empty
initially, then updated by `update_outliers` after each pass.  The
network, GCP set and thresholds are fixed across passes; the residual
evaluation of pass `k` is `evals k` (each pass re-optimises, so the
residuals differ). -/
def outlier_after (crn : Crn) (gcpSet : Finset ℕ)
    (p0 factor max_pix1 max_pix2 : ℚ)
    (fb : List ℚ → ℚ → ℚ → ℚ × ℚ)
    (evals : ℕ → Bool → List (ℚ × ℚ)) : ℕ → Finset ℕ
  | 0 => ∅
  | k + 1 =>
    update_outliers crn gcpSet p0 factor max_pix1 max_pix2 fb (evals k)
      (outlier_after crn gcpSet p0 factor max_pix1 max_pix2 fb evals k)

/-! ## The heights-from-DEM fixup (`do_ba_ceres_one_pass`, lines 950-974) -/

/-- The external geodetic and DEM operations the fixup uses
(`dem_georef.datum()` conversions, `lonlat_to_pixel`, and the bilinear
DEM sampler with its validity mask; an invalid sample is `none`). -/
structure DemEnv where
  cartesian_to_geodetic : ℚ × ℚ × ℚ → ℚ × ℚ × ℚ
  geodetic_to_cartesian : ℚ × ℚ × ℚ → ℚ × ℚ × ℚ
  lonlat_to_pixel : ℚ × ℚ → ℚ × ℚ
  dem_cols : ℕ
  dem_rows : ℕ
  interp_dem : ℚ × ℚ → Option ℚ

/-- The state the fixup threads through the observation loop: the point
coordinates and the set of point blocks passed to
`SetParameterBlockConstant`. -/
structure HeightsFixState where
  points : ℕ → ℚ × ℚ × ℚ
  constantBlocks : Finset ℕ
deriving Inhabited

/-- The DEM pixel the fixup samples for a point's current coordinates:
`dem_georef.lonlat_to_pixel(subvector(cartesian_to_geodetic(xyz), 0, 2))`. -/
def dem_pixel_of (env : DemEnv) (xyz : ℚ × ℚ × ℚ) : ℚ × ℚ :=
  let llh := env.cartesian_to_geodetic xyz
  env.lonlat_to_pixel (llh.1, llh.2.1)

/-- The bounds check of lines 960-963: `pix[0] >= 0 && pix[1] >= 0 &&
pix[0] <= interp_dem.cols()-1 && pix[1] <= interp_dem.rows()-1`. -/
def dem_pix_in_bounds (env : DemEnv) (pix : ℚ × ℚ) : Bool :=
  decide (0 ≤ pix.1) && decide (0 ≤ pix.2) &&
    decide (pix.1 ≤ (env.dem_cols : ℚ) - 1) && decide (pix.2 ≤ (env.dem_rows : ℚ) - 1)

/-- The body at lines 950-974, executed for each non-outlier observation
when `heights_from_dem` is set: for a non-GCP point, convert to geodetic,
locate the lonlat in the DEM; if the pixel is inside the DEM bounds and
the sample is valid, replace the height and write the point back; in all
cases (inside the non-GCP branch) mark the point's parameter block
constant. -/
def heights_from_dem_step (env : DemEnv) (gcpSet : Finset ℕ) (st : HeightsFixState)
    (ipt : ℕ) : HeightsFixState :=
  if ipt ∈ gcpSet then st
  else
    let llh := env.cartesian_to_geodetic (st.points ipt)
    let pix := env.lonlat_to_pixel (llh.1, llh.2.1)
    let st1 :=
      if dem_pix_in_bounds env pix then
        match env.interp_dem pix with
        | some ht =>
          HeightsFixState.mk
            (Function.update st.points ipt (env.geodetic_to_cartesian (llh.1, llh.2.1, ht)))
            st.constantBlocks
        | none => st
      else st
    HeightsFixState.mk st1.points (insert ipt st1.constantBlocks)

/-- The whole fixup: the step above for every non-outlier observation, in
camera-major order. -/
def heights_from_dem_pass (env : DemEnv) (gcpSet : Finset ℕ) (crn : Crn)
    (outlier_xyz : Finset ℕ) (points0 : ℕ → ℚ × ℚ × ℚ) : HeightsFixState :=
  (activeObsIds crn outlier_xyz).foldl (heights_from_dem_step env gcpSet)
    (HeightsFixState.mk points0 ∅)

/-! ## The similarity transform (`apply_rigid_transform`, lines 1672-1702) -/

/-- The observable state of a pinhole camera for the similarity claim:
its centre and rotation. -/
structure PinholeCameraState where
  center : Fin 3 → ℝ
  rot : Matrix (Fin 3) (Fin 3) ℝ

/-- A control point: position and whether it is a ground control
point. -/
structure CtrlPoint where
  position : Fin 3 → ℝ
  isGCP : Bool

/-- The camera and point state `apply_rigid_transform` acts on. -/
structure BAState where
  cameras : List PinholeCameraState
  cnet : List CtrlPoint

/-- Modelled from the spec: `vw::camera::PinholeModel::apply_transform`
lives in VisionWorkbench, outside this repository.  The spec (§4.1)
states that it updates the stored extrinsics consistently with the
world-frame similarity: camera centre `c ↦ s·R·c + t` and camera rotation
`C ↦ R·C`. -/
def pinhole_apply_transform (R : Matrix (Fin 3) (Fin 3) ℝ) (t : Fin 3 → ℝ) (s : ℝ)
    (cam : PinholeCameraState) : PinholeCameraState :=
  PinholeCameraState.mk (s • R.mulVec cam.center + t) (R * cam.rot)

/-- The control-network half of `apply_rigid_transform` (lines 1690-1701):
ground control points are skipped, every other point is moved to
`scale*rotation*position + translation`. -/
def transform_ctrl_point (R : Matrix (Fin 3) (Fin 3) ℝ) (t : Fin 3 → ℝ) (s : ℝ)
    (p : CtrlPoint) : CtrlPoint :=
  if p.isGCP then p
  else CtrlPoint.mk (s • R.mulVec p.position + t) p.isGCP

/-- `apply_rigid_transform`: apply the similarity to every camera and to
every non-GCP point of the control network. -/
def apply_rigid_transform (R : Matrix (Fin 3) (Fin 3) ℝ) (t : Fin 3 → ℝ) (s : ℝ)
    (st : BAState) : BAState :=
  BAState.mk (st.cameras.map (pinhole_apply_transform R t s))
    (st.cnet.map (transform_ctrl_point R t s))

/-! ## Concrete instances used to exercise the theorems -/

/-- A one-camera, two-point state (one regular point, one GCP). -/
def witness_ba_state : BAState :=
  BAState.mk [PinholeCameraState.mk (fun _ => 1) 1]
    [CtrlPoint.mk (fun _ => 2) false, CtrlPoint.mk (fun _ => 3) true]

/-- A network with one camera seeing one point whose pixel sigma is
NaN. -/
def witness_crn : Crn := [[Obs.mk 0 (5, 5) none]]

/-- A degenerate DEM environment: an empty raster whose samples are all
invalid. -/
def witness_dem_env : DemEnv :=
  DemEnv.mk (fun x => x) (fun x => x) (fun _ => (0, 0)) 0 0 (fun _ => none)

/-! ## Helper lemmas about the outlier update -/

/-- The accumulation loop of `compute_mean_residuals_at_xyz`, from an
arbitrary starting accumulator: sums and counts decompose through the
filtered per-point error list. -/
lemma accum_mean_residuals_go (entries : List (ℕ × (ℚ × ℚ))) (f : ℕ → ℚ) (g : ℕ → ℕ)
    (ipt : ℕ) :
    ((entries.foldl
        (fun acc ent =>
          (Function.update acc.1 ent.1 (acc.1 ent.1 + (|ent.2.1| + |ent.2.2|) / 2),
           Function.update acc.2 ent.1 (acc.2 ent.1 + 1)))
        (f, g)).1 ipt = f ipt + (point_obs_errors entries ipt).sum) ∧
    ((entries.foldl
        (fun acc ent =>
          (Function.update acc.1 ent.1 (acc.1 ent.1 + (|ent.2.1| + |ent.2.2|) / 2),
           Function.update acc.2 ent.1 (acc.2 ent.1 + 1)))
        (f, g)).2 ipt = g ipt + (point_obs_errors entries ipt).length) := by
  induction entries generalizing f g with
  | nil => simp [point_obs_errors]
  | cons ent rest ih =>
    rcases ih (Function.update f ent.1 (f ent.1 + (|ent.2.1| + |ent.2.2|) / 2))
      (Function.update g ent.1 (g ent.1 + 1)) with ⟨ih1, ih2⟩
    by_cases h : ent.1 = ipt
    · subst h
      constructor
      · rw [List.foldl_cons, ih1, Function.update_same]
        simp [point_obs_errors, List.filter_cons]
        ring
      · rw [List.foldl_cons, ih2, Function.update_same]
        simp [point_obs_errors, List.filter_cons]
        omega
    · constructor
      · rw [List.foldl_cons, ih1, Function.update_noteq (fun hh => h hh.symm)]
        simp [point_obs_errors, List.filter_cons, h]
      · rw [List.foldl_cons, ih2, Function.update_noteq (fun hh => h hh.symm)]
        simp [point_obs_errors, List.filter_cons, h]

/-- The accumulated mean of `compute_mean_residuals_at_xyz` is the spec's
per-point mean `r_i`. -/
lemma mean_residual_at_eq_r_spec (entries : List (ℕ × (ℚ × ℚ))) (ipt : ℕ) :
    mean_residual_at entries ipt = r_spec entries ipt := by
  have h := accum_mean_residuals_go entries (fun _ => 0) (fun _ => 0) ipt
  unfold mean_residual_at r_spec accum_mean_residuals
  rw [h.1, h.2]
  simp

/-- Membership in the insertion loop of `update_outliers` (lines 651-671),
for any starting set. -/
lemma update_fold_mem (l : List ℕ) (outliers gcpSet : Finset ℕ) (mean : ℕ → ℚ) (e : ℚ)
    (acc : Finset ℕ) (x : ℕ) :
    x ∈ l.foldl
        (fun acc2 ipt =>
          if ipt ∈ outliers then acc2
          else if ipt ∈ gcpSet then acc2
          else if e < mean ipt then insert ipt acc2
          else acc2)
        acc ↔
      x ∈ acc ∨ (x ∈ l ∧ x ∉ outliers ∧ x ∉ gcpSet ∧ e < mean x) := by
  induction l generalizing acc with
  | nil => simp
  | cons a rest ih =>
    rw [List.foldl_cons]
    by_cases h1 : a ∈ outliers
    · rw [if_pos h1, ih]
      constructor
      · rintro (hx | ⟨hm, h2, h3, h4⟩)
        · exact Or.inl hx
        · exact Or.inr ⟨List.mem_cons_of_mem a hm, h2, h3, h4⟩
      · rintro (hx | ⟨hm, h2, h3, h4⟩)
        · exact Or.inl hx
        · rcases List.mem_cons.mp hm with hm | hm
          · exact absurd h1 (hm ▸ h2)
          · exact Or.inr ⟨hm, h2, h3, h4⟩
    · rw [if_neg h1]
      by_cases h2 : a ∈ gcpSet
      · rw [if_pos h2, ih]
        constructor
        · rintro (hx | ⟨hm, h3, h4, h5⟩)
          · exact Or.inl hx
          · exact Or.inr ⟨List.mem_cons_of_mem a hm, h3, h4, h5⟩
        · rintro (hx | ⟨hm, h3, h4, h5⟩)
          · exact Or.inl hx
          · rcases List.mem_cons.mp hm with hm | hm
            · exact absurd h2 (hm ▸ h4)
            · exact Or.inr ⟨hm, h3, h4, h5⟩
      · rw [if_neg h2]
        by_cases h3 : e < mean a
        · rw [if_pos h3, ih]
          constructor
          · rintro (hx | ⟨hm, h4, h5, h6⟩)
            · rcases Finset.mem_insert.mp hx with hx | hx
              · exact Or.inr ⟨hx ▸ List.mem_cons_self a rest, hx ▸ h1, hx ▸ h2, hx ▸ h3⟩
              · exact Or.inl hx
            · exact Or.inr ⟨List.mem_cons_of_mem a hm, h4, h5, h6⟩
          · rintro (hx | ⟨hm, h4, h5, h6⟩)
            · exact Or.inl (Finset.mem_insert_of_mem hx)
            · rcases List.mem_cons.mp hm with hm | hm
              · exact Or.inl (hm ▸ Finset.mem_insert_self a acc)
              · exact Or.inr ⟨hm, h4, h5, h6⟩
        · rw [if_neg h3, ih]
          constructor
          · rintro (hx | ⟨hm, h4, h5, h6⟩)
            · exact Or.inl hx
            · exact Or.inr ⟨List.mem_cons_of_mem a hm, h4, h5, h6⟩
          · rintro (hx | ⟨hm, h4, h5, h6⟩)
            · exact Or.inl hx
            · rcases List.mem_cons.mp hm with hm | hm
              · exact absurd (hm ▸ h6) h3
              · exact Or.inr ⟨hm, h4, h5, h6⟩

/-- Membership characterisation of `update_outliers`: a point is in the
updated set iff it already was an outlier, or it is an observed,
non-outlier, non-GCP point whose mean loss-free reprojection residual
exceeds the clamped bracket cutoff. -/
lemma mem_update_outliers_iff (crn : Crn) (gcpSet : Finset ℕ)
    (p0 factor max_pix1 max_pix2 : ℚ) (fb : List ℚ → ℚ → ℚ → ℚ × ℚ)
    (evalResiduals : Bool → List (ℚ × ℚ)) (outlier_xyz : Finset ℕ) (ipt : ℕ) :
    ipt ∈ update_outliers crn gcpSet p0 factor max_pix1 max_pix2 fb evalResiduals outlier_xyz ↔
      ipt ∈ outlier_xyz ∨
        (ipt ∈ allObsIds crn ∧ ipt ∉ outlier_xyz ∧ ipt ∉ gcpSet ∧
          min (max (fb ((first_occurrences
                  ((activeObsIds crn outlier_xyz).filter (fun j => decide (j ∉ gcpSet))) ∅).map
                (fun j => r_spec (residual_entries crn outlier_xyz (evalResiduals false)) j))
              (1 - p0 / 100) factor).2 max_pix1) max_pix2
            < r_spec (residual_entries crn outlier_xyz (evalResiduals false)) ipt) := by
  simp only [update_outliers, update_fold_mem, mean_residual_at_eq_r_spec]

lemma inner_reproj_blocks (cam : List Obs) (outliers : Finset ℕ) (g : Obs → ResidualBlock)
    (p : CeresProblem) :
    (cam.foldl
        (fun pb2 ob => if ob.ipt ∈ outliers then pb2 else addResidualBlock pb2 (g ob)) p).blocks
      = p.blocks ++ (cam.filter (fun ob => decide (ob.ipt ∉ outliers))).map g := by
  induction cam generalizing p with
  | nil => simp
  | cons ob rest ih =>
    by_cases h : ob.ipt ∈ outliers
    · rw [List.foldl_cons, if_pos h, ih]
      simp [h]
    · rw [List.foldl_cons, if_neg h, ih]
      simp [h, addResidualBlock]

lemma outer_reproj_blocks (l : List (ℕ × List Obs)) (outliers : Finset ℕ)
    (g : (ℕ × List Obs) → Obs → ResidualBlock) (p : CeresProblem) :
    (l.foldl
        (fun pb ic => ic.2.foldl
          (fun pb2 ob => if ob.ipt ∈ outliers then pb2 else addResidualBlock pb2 (g ic ob))
          pb)
        p).blocks
      = p.blocks
        ++ (l.map (fun ic =>
              (ic.2.filter (fun ob => decide (ob.ipt ∉ outliers))).map (g ic))).flatten := by
  induction l generalizing p with
  | nil => simp
  | cons ic rest ih =>
    rw [List.foldl_cons, ih, inner_reproj_blocks]
    simp [List.append_assoc]

lemma gcp_fold_blocks (l : List ℕ) (gcpSet outliers : Finset ℕ) (p : CeresProblem) :
    (l.foldl
        (fun pb ipt =>
          if ipt ∉ gcpSet then pb
          else if ipt ∈ outliers then pb
          else addResidualBlock pb (ResidualBlock.gcpAnchor ipt)) p).blocks
      = p.blocks
        ++ (l.filter (fun ipt => decide (ipt ∈ gcpSet ∧ ipt ∉ outliers))).map
            ResidualBlock.gcpAnchor := by
  induction l generalizing p with
  | nil => simp
  | cons a rest ih =>
    by_cases h1 : a ∈ gcpSet
    · by_cases h2 : a ∈ outliers
      · rw [List.foldl_cons, if_neg (by simpa using h1), if_pos h2, ih]
        simp [h1, h2]
      · rw [List.foldl_cons, if_neg (by simpa using h1), if_neg h2, ih]
        simp [h1, h2, addResidualBlock]
    · rw [List.foldl_cons, if_pos (by simpa using h1), ih]
      simp [h1]

lemma map_add_fold_blocks {α : Type} (l : List α) (g : α → ResidualBlock) (p : CeresProblem) :
    (l.foldl (fun pb a => addResidualBlock pb (g a)) p).blocks = p.blocks ++ l.map g := by
  induction l generalizing p with
  | nil => simp
  | cons a rest ih =>
    rw [List.foldl_cons, ih]
    simp [addResidualBlock]

/-- The residual blocks built by `do_ba_ceres_one_pass` are exactly the
five spec-ordered segments, concatenated. -/
lemma one_pass_blocks_eq (crn : Crn) (outlier_xyz gcpSet : Finset ℕ)
    (num_points num_cameras : ℕ)
    (camera_weight rotation_weight translation_weight overlap_exponent : ℚ)
    (powFn : ℚ → ℚ → ℚ) (reference_vec : List ℕ) :
    (do_ba_ceres_one_pass_blocks crn outlier_xyz gcpSet num_points num_cameras
        camera_weight rotation_weight translation_weight overlap_exponent powFn
        reference_vec).blocks
      = spec_residual_order crn outlier_xyz gcpSet num_points num_cameras
          camera_weight rotation_weight translation_weight overlap_exponent powFn
          reference_vec := by
  simp only [do_ba_ceres_one_pass_blocks, spec_residual_order]
  by_cases hc : 0 < camera_weight
  · by_cases hr : 0 < rotation_weight ∨ 0 < translation_weight
    · rw [if_pos hc, if_pos hr, if_pos hc, if_pos hr,
        map_add_fold_blocks, map_add_fold_blocks, map_add_fold_blocks, gcp_fold_blocks,
        outer_reproj_blocks crn.enum outlier_xyz
          (fun ic ob => ResidualBlock.reprojection ic.1 ob.ipt
            (obs_pixel_sigma overlap_exponent powFn (obsCount crn outlier_xyz ob.ipt) ob.scale))]
      simp [List.append_assoc]
    · rw [if_pos hc, if_neg hr, if_pos hc, if_neg hr,
        map_add_fold_blocks, map_add_fold_blocks, gcp_fold_blocks,
        outer_reproj_blocks crn.enum outlier_xyz
          (fun ic ob => ResidualBlock.reprojection ic.1 ob.ipt
            (obs_pixel_sigma overlap_exponent powFn (obsCount crn outlier_xyz ob.ipt) ob.scale))]
      simp [List.append_assoc]
  · by_cases hr : 0 < rotation_weight ∨ 0 < translation_weight
    · rw [if_neg hc, if_pos hr, if_neg hc, if_pos hr,
        map_add_fold_blocks, map_add_fold_blocks, gcp_fold_blocks,
        outer_reproj_blocks crn.enum outlier_xyz
          (fun ic ob => ResidualBlock.reprojection ic.1 ob.ipt
            (obs_pixel_sigma overlap_exponent powFn (obsCount crn outlier_xyz ob.ipt) ob.scale))]
      simp [List.append_assoc]
    · rw [if_neg hc, if_neg hr, if_neg hc, if_neg hr,
        map_add_fold_blocks, gcp_fold_blocks,
        outer_reproj_blocks crn.enum outlier_xyz
          (fun ic ob => ResidualBlock.reprojection ic.1 ob.ipt
            (obs_pixel_sigma overlap_exponent powFn (obsCount crn outlier_xyz ob.ipt) ob.scale))]
      simp [List.append_assoc]

/-! ## Helper lemmas about the similarity transform -/

lemma mulVec_transpose_cancel {R : Matrix (Fin 3) (Fin 3) ℝ} (hR : R.transpose * R = 1)
    (x : Fin 3 → ℝ) : R.transpose.mulVec (R.mulVec x) = x := by
  rw [Matrix.mulVec_mulVec, hR, Matrix.one_mulVec]

lemma similarity_center_cancel {R : Matrix (Fin 3) (Fin 3) ℝ} {t : Fin 3 → ℝ} {s : ℝ}
    (hR : R.transpose * R = 1) (hs : s ≠ 0) (x : Fin 3 → ℝ) :
    s⁻¹ • R.transpose.mulVec (s • R.mulVec x + t) + -(s⁻¹ • R.transpose.mulVec t) = x := by
  rw [Matrix.mulVec_add, Matrix.mulVec_smul, mulVec_transpose_cancel hR, smul_add, smul_smul,
    inv_mul_cancel₀ hs, one_smul]
  abel

lemma pinhole_roundtrip {R : Matrix (Fin 3) (Fin 3) ℝ} {t : Fin 3 → ℝ} {s : ℝ}
    (hR : R.transpose * R = 1) (hs : s ≠ 0) (cam : PinholeCameraState) :
    pinhole_apply_transform R.transpose (-(s⁻¹ • R.transpose.mulVec t)) s⁻¹
      (pinhole_apply_transform R t s cam) = cam := by
  cases cam with
  | mk c C =>
    unfold pinhole_apply_transform
    congr 1
    · exact similarity_center_cancel hR hs c
    · rw [← Matrix.mul_assoc, hR, Matrix.one_mul]

lemma ctrl_point_roundtrip {R : Matrix (Fin 3) (Fin 3) ℝ} {t : Fin 3 → ℝ} {s : ℝ}
    (hR : R.transpose * R = 1) (hs : s ≠ 0) (p : CtrlPoint) :
    transform_ctrl_point R.transpose (-(s⁻¹ • R.transpose.mulVec t)) s⁻¹
      (transform_ctrl_point R t s p) = p := by
  cases p with
  | mk pos flag =>
    cases flag
    · simp only [transform_ctrl_point, Bool.false_eq_true, if_false]
      rw [similarity_center_cancel hR hs pos]
    · simp [transform_ctrl_point]

lemma map_map_id {α : Type} (f g : α → α) (h : ∀ x, f (g x) = x) (l : List α) :
    (l.map g).map f = l := by
  induction l with
  | nil => rfl
  | cons a rest ih => simp [h, ih]

/-! ## Helper lemmas about the heights-from-DEM fixup -/

lemma heights_step_constants (env : DemEnv) (gcpSet : Finset ℕ) (st : HeightsFixState)
    (ipt : ℕ) :
    (heights_from_dem_step env gcpSet st ipt).constantBlocks
      = if ipt ∈ gcpSet then st.constantBlocks else insert ipt st.constantBlocks := by
  by_cases h : ipt ∈ gcpSet
  · simp [heights_from_dem_step, h]
  · simp only [heights_from_dem_step, if_neg h, if_pos, if_neg]
    split
    · split <;> simp [h]
    · simp [h]

lemma heights_step_bad_sample (env : DemEnv) (gcpSet : Finset ℕ) (st : HeightsFixState)
    (ipt : ℕ) (hgcp : ipt ∉ gcpSet)
    (hbad : dem_pix_in_bounds env (dem_pixel_of env (st.points ipt)) = false ∨
      env.interp_dem (dem_pixel_of env (st.points ipt)) = none) :
    heights_from_dem_step env gcpSet st ipt
      = HeightsFixState.mk st.points (insert ipt st.constantBlocks) := by
  simp only [dem_pixel_of] at hbad
  rcases hbad with hb | hb
  · simp [heights_from_dem_step, hgcp, hb]
  · simp only [heights_from_dem_step, if_neg hgcp]
    split
    · simp [hb]
    · simp

lemma heights_pass_mem_constants (env : DemEnv) (gcpSet : Finset ℕ) (l : List ℕ)
    (st : HeightsFixState) (ipt : ℕ)
    (h : (ipt ∈ l ∧ ipt ∉ gcpSet) ∨ ipt ∈ st.constantBlocks) :
    ipt ∈ (l.foldl (heights_from_dem_step env gcpSet) st).constantBlocks := by
  induction l generalizing st with
  | nil =>
    rcases h with ⟨hm, _⟩ | hin
    · exact absurd hm (List.not_mem_nil ipt)
    · exact hin
  | cons a rest ih =>
    rw [List.foldl_cons]
    rcases h with ⟨hm, hg⟩ | hin
    · rcases List.mem_cons.mp hm with rfl | hm
      · refine ih _ (Or.inr ?_)
        rw [heights_step_constants, if_neg hg]
        exact Finset.mem_insert_self _ _
      · exact ih _ (Or.inl ⟨hm, hg⟩)
    · refine ih _ (Or.inr ?_)
      rw [heights_step_constants]
      split
      · exact hin
      · exact Finset.mem_insert_of_mem hin

/-- Evaluating the `if`-guarded mismatch throw of `compute_residuals`:
acceptance is equivalent to the (rearranged) expected count, and any
other count yields the logic error. -/
lemma check_result_iff (E F n : ℕ) (hEF : E = F) (msg : String) :
    (((if E ≠ n then Except.error msg else Except.ok ()) : Except String Unit)
        = Except.ok () ↔ n = F) ∧
    (n ≠ F →
      ((if E ≠ n then Except.error msg else Except.ok ()) : Except String Unit)
        = Except.error msg) := by
  subst hEF
  by_cases h : E = n
  · subst h
    simp
  · constructor
    · rw [if_pos h]
      simp [Ne.symm h]
    · intro _
      rw [if_pos h]

/-! ## The claims -/

/-- Claim C1: in the outlier-rejection step between passes, with
`remove_outliers_params = (p0, factor, err1, err2)`, the per-point
residual `r_i` is the mean over the point's observations of
`(|ex| + |ey|) / 2` computed from a loss-free residual evaluation
(`apply_loss_function = false`); the cutoff is `e` after the clamp
`e = min(max(e, err1), err2)`, where `(b, e) = find_outlier_brackets`
applied, with percentage `1 - p0/100` and `factor`, to the per-point
means of the non-GCP, non-outlier points; and exactly the non-GCP,
not-already-outlier observed points with `r_i > e` are added as new
outliers. -/
theorem c1_update_outliers_exact (crn : Crn) (gcpSet : Finset ℕ)
    (p0 factor err1 err2 : ℚ) (fb : List ℚ → ℚ → ℚ → ℚ × ℚ)
    (evalResiduals : Bool → List (ℚ × ℚ)) (outlier_xyz : Finset ℕ) (ipt : ℕ) :
    ipt ∈ update_outliers crn gcpSet p0 factor err1 err2 fb evalResiduals outlier_xyz ↔
      ipt ∈ outlier_xyz ∨
        (ipt ∈ allObsIds crn ∧ ipt ∉ outlier_xyz ∧ ipt ∉ gcpSet ∧
          min (max (fb ((first_occurrences
                  ((activeObsIds crn outlier_xyz).filter (fun j => decide (j ∉ gcpSet))) ∅).map
                (fun j => r_spec (residual_entries crn outlier_xyz (evalResiduals false)) j))
              (1 - p0 / 100) factor).2 err1) err2
            < r_spec (residual_entries crn outlier_xyz (evalResiduals false)) ipt) :=
  mem_update_outliers_iff crn gcpSet p0 factor err1 err2 fb evalResiduals outlier_xyz ipt

/-- Claim C2: across passes the outlier set grows monotonically
(`update_outliers` only inserts), and no reachable outlier set contains
the index of a GCP tie point. -/
theorem c2_outlier_monotone_gcp_free (crn : Crn) (gcpSet : Finset ℕ)
    (p0 factor err1 err2 : ℚ) (fb : List ℚ → ℚ → ℚ → ℚ × ℚ)
    (evals : ℕ → Bool → List (ℚ × ℚ)) :
    (∀ k, outlier_after crn gcpSet p0 factor err1 err2 fb evals k ⊆
        outlier_after crn gcpSet p0 factor err1 err2 fb evals (k + 1)) ∧
    (∀ k ipt, ipt ∈ gcpSet →
      ipt ∉ outlier_after crn gcpSet p0 factor err1 err2 fb evals k) := by
  constructor
  · intro k x hx
    exact (mem_update_outliers_iff crn gcpSet p0 factor err1 err2 fb (evals k)
      (outlier_after crn gcpSet p0 factor err1 err2 fb evals k) x).mpr (Or.inl hx)
  · intro k
    induction k with
    | zero =>
      intro ipt _
      simp [outlier_after]
    | succ n ihn =>
      intro ipt hg hmem
      rcases (mem_update_outliers_iff crn gcpSet p0 factor err1 err2 fb (evals n)
          (outlier_after crn gcpSet p0 factor err1 err2 fb evals n) ipt).mp hmem with
        hold | ⟨_, _, hng, _⟩
      · exact ihn ipt hg hold
      · exact hng hg

/-- A pass of the loop never removes an outlier, and a GCP index never
enters the set. -/
theorem c2_witness :
    (0 : ℕ) ∈ ({0} : Finset ℕ) ∧
    (0 : ℕ) ∉ outlier_after [[Obs.mk 0 (5, 5) (some (1, 1))]] {0} 75 3 2 3
      (fun _ _ _ => (0, 0)) (fun _ _ => [(0, 0)]) 2 :=
  ⟨Finset.mem_singleton_self 0,
    (c2_outlier_monotone_gcp_free [[Obs.mk 0 (5, 5) (some (1, 1))]] {0} 75 3 2 3
      (fun _ _ _ => (0, 0)) (fun _ _ => [(0, 0)])).2 2 0 (Finset.mem_singleton_self 0)⟩

/-- Claim C3: the linear-solver configuration as a function of
`num_cameras`: fewer than 100 cameras selects `DENSE_SCHUR`; 100 to 3500
selects `SPARSE_SCHUR`; 3501 to 7000 selects `ITERATIVE_SCHUR` with the
`SCHUR_JACOBI` preconditioner and the explicit Schur complement; more
than 7000 selects `ITERATIVE_SCHUR` with the explicit Schur complement
disabled. -/
theorem c3_linear_solver_sizing (num_cameras : ℕ) :
    (num_cameras < 100 →
      (set_solver_size_options num_cameras).linear_solver_type
        = LinearSolverType.DENSE_SCHUR) ∧
    (100 ≤ num_cameras ∧ num_cameras ≤ 3500 →
      (set_solver_size_options num_cameras).linear_solver_type
        = LinearSolverType.SPARSE_SCHUR) ∧
    (3500 < num_cameras ∧ num_cameras ≤ 7000 →
      (set_solver_size_options num_cameras).linear_solver_type
          = LinearSolverType.ITERATIVE_SCHUR ∧
      (set_solver_size_options num_cameras).preconditioner_type
          = PreconditionerType.SCHUR_JACOBI ∧
      (set_solver_size_options num_cameras).use_explicit_schur_complement = true) ∧
    (7000 < num_cameras →
      (set_solver_size_options num_cameras).linear_solver_type
          = LinearSolverType.ITERATIVE_SCHUR ∧
      (set_solver_size_options num_cameras).use_explicit_schur_complement = false) := by
  refine ⟨fun h => ?_, fun h => ?_, fun h => ?_, fun h => ?_⟩
  · have h2 : ¬ 3500 < num_cameras := by omega
    have h3 : ¬ 7000 < num_cameras := by omega
    simp [set_solver_size_options, h, h2, h3]
  · have h1 : ¬ num_cameras < 100 := by omega
    have h2 : ¬ 3500 < num_cameras := by omega
    have h3 : ¬ 7000 < num_cameras := by omega
    simp [set_solver_size_options, h1, h2, h3]
  · have h1 : ¬ num_cameras < 100 := by omega
    have h3 : ¬ 7000 < num_cameras := by omega
    simp [set_solver_size_options, h1, h.1, h3]
  · have h1 : ¬ num_cameras < 100 := by omega
    have h2 : 3500 < num_cameras := by omega
    simp [set_solver_size_options, h1, h2, h]

/-- The spec's solver-sizing scenario: 50, 1000, 5000 and 10000 cameras
select dense, sparse, iterative-explicit and iterative-implicit
respectively. -/
theorem c3_witness :
    (set_solver_size_options 50).linear_solver_type = LinearSolverType.DENSE_SCHUR ∧
    (set_solver_size_options 1000).linear_solver_type = LinearSolverType.SPARSE_SCHUR ∧
    ((set_solver_size_options 5000).linear_solver_type = LinearSolverType.ITERATIVE_SCHUR ∧
      (set_solver_size_options 5000).preconditioner_type = PreconditionerType.SCHUR_JACOBI ∧
      (set_solver_size_options 5000).use_explicit_schur_complement = true) ∧
    ((set_solver_size_options 10000).linear_solver_type = LinearSolverType.ITERATIVE_SCHUR ∧
      (set_solver_size_options 10000).use_explicit_schur_complement = false) :=
  ⟨(c3_linear_solver_sizing 50).1 (by norm_num),
    (c3_linear_solver_sizing 1000).2.1 (by norm_num),
    (c3_linear_solver_sizing 5000).2.2.1 (by norm_num),
    (c3_linear_solver_sizing 10000).2.2.2 (by norm_num)⟩

/-- Claim C4: the residual vector of a pass's problem is ordered exactly
by the order residual blocks were added: reprojection blocks
(camera-major, per-observation within each camera), then GCP anchors,
then camera priors (if `camera_weight > 0`), then rotation/translation
priors (if `rotation_weight > 0` or `translation_weight > 0`), then
disparity-terrain residuals. -/
theorem c4_residual_evaluation_order (crn : Crn) (outlier_xyz gcpSet : Finset ℕ)
    (num_points num_cameras : ℕ)
    (camera_weight rotation_weight translation_weight overlap_exponent : ℚ)
    (powFn : ℚ → ℚ → ℚ) (reference_vec : List ℕ) :
    (do_ba_ceres_one_pass_blocks crn outlier_xyz gcpSet num_points num_cameras
        camera_weight rotation_weight translation_weight overlap_exponent powFn
        reference_vec).blocks
      = spec_residual_order crn outlier_xyz gcpSet num_points num_cameras
          camera_weight rotation_weight translation_weight overlap_exponent powFn
          reference_vec :=
  one_pass_blocks_eq crn outlier_xyz gcpSet num_points num_cameras camera_weight
    rotation_weight translation_weight overlap_exponent powFn reference_vec

/-- Claim C5: the evaluated residual-vector length equals
`Σ_cam |obs_cam|·2 + |gcp|·3 + [camera_weight>0]·num_cameras·cam_dim +
[rot|trans_weight>0]·num_cameras·cam_dim + |reference_in_range|·2`, and
any other length makes `compute_residuals` raise a logic error. -/
theorem c5_residual_vector_length (camera_weight rotation_weight translation_weight : ℚ)
    (num_cameras num_camera_params : ℕ) (cam_residual_counts : List ℕ)
    (num_gcp_residuals num_reference num_residuals : ℕ) :
    (compute_residuals_check camera_weight rotation_weight translation_weight num_cameras
        num_camera_params 3 cam_residual_counts num_gcp_residuals num_reference num_residuals
        = Except.ok () ↔
      num_residuals
        = (cam_residual_counts.map (fun c => c * 2)).sum + num_gcp_residuals * 3
          + (if 0 < camera_weight then num_cameras * num_camera_params else 0)
          + (if 0 < rotation_weight ∨ 0 < translation_weight then
              num_cameras * num_camera_params
            else 0)
          + num_reference * 2) ∧
    (num_residuals
        ≠ (cam_residual_counts.map (fun c => c * 2)).sum + num_gcp_residuals * 3
          + (if 0 < camera_weight then num_cameras * num_camera_params else 0)
          + (if 0 < rotation_weight ∨ 0 < translation_weight then
              num_cameras * num_camera_params
            else 0)
          + num_reference * 2 →
      compute_residuals_check camera_weight rotation_weight translation_weight num_cameras
          num_camera_params 3 cam_residual_counts num_gcp_residuals num_reference
          num_residuals
        = Except.error "LogicErr: unexpected residual count") := by
  simp only [compute_residuals_check, PIXEL_SIZE]
  by_cases hc : 0 < camera_weight <;>
    by_cases hr : 0 < rotation_weight ∨ 0 < translation_weight <;>
      simp only [hc, hr, if_true, if_false, iff_true, iff_false, ite_true, ite_false] <;>
      exact check_result_iff _ _ _ (by omega) _

/-- The spec's residual-log scenario: 3 cameras with 10 observations
each, 2 GCPs, `camera_weight = 1`, no rotation/translation prior, no
terrain: 60 + 6 + 18 = 84 residual components are accepted, and 85
raises the logic error. -/
theorem c5_witness :
    compute_residuals_check 1 0 0 3 6 3 [10, 10, 10] 2 0 84 = Except.ok () ∧
    ((85 : ℕ) ≠ ([10, 10, 10].map (fun c => c * 2)).sum + 2 * 3
        + (if (0 : ℚ) < 1 then 3 * 6 else 0)
        + (if (0 : ℚ) < 0 ∨ (0 : ℚ) < 0 then 3 * 6 else 0) + 0 * 2) ∧
    compute_residuals_check 1 0 0 3 6 3 [10, 10, 10] 2 0 85
      = Except.error "LogicErr: unexpected residual count" :=
  ⟨(c5_residual_vector_length 1 0 0 3 6 [10, 10, 10] 2 0 84).1.mpr (by decide),
    by decide,
    (c5_residual_vector_length 1 0 0 3 6 [10, 10, 10] 2 0 85).2 (by decide)⟩

/-- Claim C6 (code bug): the program's interface documents the five cost
functions cauchy, pseudohuber, huber, l1, l2, and the outer dispatch of
`do_ba_with_model` accepts all five; but under the default ceres bundle
adjuster the loss selection `get_loss_function` has no `pseudohuber`
case and throws `ArgumentErr` for it, while the other four are mapped to
their robust losses. -/
theorem c6_pseudohuber_rejected :
    do_ba_with_model_accepts "pseudohuber" = true ∧
    get_loss_function "pseudohuber" (1 / 2)
      = Except.error ("Unknown cost function: " ++ "pseudohuber") ∧
    get_loss_function "cauchy" (1 / 2) = Except.ok (some (CeresLoss.CauchyLoss (1 / 2))) ∧
    get_loss_function "huber" (1 / 2) = Except.ok (some (CeresLoss.HuberLoss (1 / 2))) ∧
    get_loss_function "l1" (1 / 2) = Except.ok (some (CeresLoss.SoftLOneLoss (1 / 2))) ∧
    get_loss_function "l2" (1 / 2) = Except.ok none :=
  ⟨rfl, rfl, rfl, rfl, rfl, rfl⟩

/-- Claim C7 counterexample: a two-pass run whose first (non-last) pass
flags no new outliers exits the pass loop before the `min_matches`
check, even though only 10 points survive with `min_matches = 30` — the
claim as stated requires an abort here. -/
theorem c7_counterexample :
    after_pass_check 2 0 0 10 0 30 = PassCheckResult.exitLoop ∧
    after_pass_check 2 0 0 10 0 30 ≠ PassCheckResult.abortRun ∧
    1 < 2 ∧ (10 : ℤ) - (0 : ℤ) < 30 := by
  refine ⟨rfl, ?_, by norm_num, by norm_num⟩
  intro h
  exact PassCheckResult.noConfusion h

/-- Claim C7 amended: in a multi-pass run (`num_ba_passes > 1`), if a
pass reaches the surviving-point check — that is, it is the last pass or
it flagged at least one new outlier — and the surviving point count
`num_points - |outliers|` is below `min_matches`, the run aborts; with a
single configured pass no such abort occurs regardless of the point
count.  (A non-last pass with zero new outliers instead breaks out of
the loop before the check.) -/
theorem c7_min_matches_abort_amended (num_ba_passes pass num_new_outliers : ℕ)
    (num_points num_outliers : ℕ) (min_matches : ℤ) :
    (1 < num_ba_passes → (pass = num_ba_passes - 1 ∨ num_new_outliers ≠ 0) →
      (num_points : ℤ) - (num_outliers : ℤ) < min_matches →
      after_pass_check num_ba_passes pass num_new_outliers num_points num_outliers min_matches
        = PassCheckResult.abortRun) ∧
    (num_ba_passes = 1 →
      after_pass_check num_ba_passes pass num_new_outliers num_points num_outliers min_matches
        ≠ PassCheckResult.abortRun) := by
  constructor
  · intro h1 h2 h3
    have hnb : ¬ (¬ pass = num_ba_passes - 1 ∧ num_new_outliers = 0) := by tauto
    simp only [after_pass_check, if_neg hnb, if_pos (And.intro h1 h3)]
  · intro h1
    subst h1
    simp only [after_pass_check]
    by_cases hb : ¬ pass = 1 - 1 ∧ num_new_outliers = 0
    · rw [if_pos hb]
      exact fun h => PassCheckResult.noConfusion h
    · rw [if_neg hb, if_neg (fun h => absurd h.1 (lt_irrefl 1))]
      exact fun h => PassCheckResult.noConfusion h

/-- A last pass of a two-pass run with 5 of 10 points flagged and
`min_matches = 30` aborts. -/
theorem c7_witness :
    (1 : ℕ) < 2 ∧ ((1 : ℕ) = 2 - 1 ∨ (0 : ℕ) ≠ 0) ∧
    ((10 : ℕ) : ℤ) - ((5 : ℕ) : ℤ) < 30 ∧
    after_pass_check 2 1 0 10 5 30 = PassCheckResult.abortRun :=
  ⟨by norm_num, Or.inl rfl, by norm_num,
    (c7_min_matches_abort_amended 2 1 0 10 5 30).1 (by norm_num) (Or.inl rfl) (by norm_num)⟩

/-- Claim C8: applying `apply_rigid_transform` with `(R, t, s)`
(`R ∈ SO(3)`, `s > 0`) and then with the inverse similarity
`(Rᵀ, -s⁻¹·Rᵀ·t, s⁻¹)` returns every camera parameter and every point
coordinate exactly to its original value (in the real-number model; in
particular to within `1e-9` per coordinate); and each non-GCP point is
transformed as `x' = s·R·x + t` (GCPs are skipped by the transform and
hence also return to themselves). -/
theorem c8_similarity_roundtrip (R : Matrix (Fin 3) (Fin 3) ℝ) (t : Fin 3 → ℝ) (s : ℝ)
    (st : BAState) (hR : R.transpose * R = 1) (hs : 0 < s) :
    apply_rigid_transform R.transpose (-(s⁻¹ • R.transpose.mulVec t)) s⁻¹
        (apply_rigid_transform R t s st) = st ∧
    ∀ p ∈ st.cnet, p.isGCP = false →
      CtrlPoint.mk (s • R.mulVec p.position + t) false
        ∈ (apply_rigid_transform R t s st).cnet := by
  constructor
  · cases st with
    | mk cams cnet =>
      simp only [apply_rigid_transform]
      congr 1
      · exact map_map_id _ _ (pinhole_roundtrip hR (ne_of_gt hs)) cams
      · exact map_map_id _ _ (ctrl_point_roundtrip hR (ne_of_gt hs)) cnet
  · intro p hp hgcp
    have h2 : transform_ctrl_point R t s p
        = CtrlPoint.mk (s • R.mulVec p.position + t) false := by
      unfold transform_ctrl_point
      rw [hgcp]
      simp
    have h3 := List.mem_map_of_mem (transform_ctrl_point R t s) hp
    rw [h2] at h3
    exact h3

/-- The identity similarity on a concrete state: `R = 1`, `t = 0`,
`s = 1` round-trips the state exactly. -/
theorem c8_witness :
    ((1 : Matrix (Fin 3) (Fin 3) ℝ).transpose * 1 = 1) ∧ ((0 : ℝ) < 1) ∧
    apply_rigid_transform (1 : Matrix (Fin 3) (Fin 3) ℝ).transpose
        (-((1 : ℝ)⁻¹ • (1 : Matrix (Fin 3) (Fin 3) ℝ).transpose.mulVec 0)) (1 : ℝ)⁻¹
        (apply_rigid_transform 1 0 1 witness_ba_state) = witness_ba_state :=
  ⟨by simp, one_pos,
    (c8_similarity_roundtrip 1 0 1 witness_ba_state (by simp) one_pos).1⟩

/-- Claim C9: an observation whose pixel sigma is NaN has the sigma
coerced to `(1, 1)` during residual-graph construction, and the
observation still contributes a reprojection residual block to the
problem. -/
theorem c9_nan_sigma_still_contributes (crn : Crn) (outlier_xyz gcpSet : Finset ℕ)
    (num_points num_cameras : ℕ)
    (camera_weight rotation_weight translation_weight overlap_exponent : ℚ)
    (powFn : ℚ → ℚ → ℚ) (reference_vec : List ℕ)
    (icam : ℕ) (cam : List Obs) (ob : Obs)
    (hcam : (icam, cam) ∈ crn.enum) (hob : ob ∈ cam) (hnan : ob.scale = none)
    (hout : ob.ipt ∉ outlier_xyz) :
    fix_nan_sigma ob.scale = (1, 1) ∧
    ResidualBlock.reprojection icam ob.ipt
        (obs_pixel_sigma overlap_exponent powFn (obsCount crn outlier_xyz ob.ipt) ob.scale)
      ∈ (do_ba_ceres_one_pass_blocks crn outlier_xyz gcpSet num_points num_cameras
          camera_weight rotation_weight translation_weight overlap_exponent powFn
          reference_vec).blocks := by
  constructor
  · rw [hnan]
    rfl
  · rw [one_pass_blocks_eq]
    unfold spec_residual_order
    apply List.mem_append_left
    apply List.mem_append_left
    apply List.mem_append_left
    apply List.mem_append_left
    refine List.mem_flatten.mpr ⟨_, List.mem_map_of_mem _ hcam, ?_⟩
    exact List.mem_map_of_mem _ (List.mem_filter.mpr ⟨hob, decide_eq_true hout⟩)

/-- A NaN-sigma observation in a one-camera, one-point network is
coerced and contributes. -/
theorem c9_witness :
    ((0, [Obs.mk 0 (5, 5) none]) ∈ witness_crn.enum) ∧
    (Obs.mk 0 (5, 5) none ∈ [Obs.mk 0 (5, 5) none]) ∧
    ((Obs.mk 0 (5, 5) none).scale = none) ∧ ((0 : ℕ) ∉ (∅ : Finset ℕ)) ∧
    (fix_nan_sigma (Obs.mk 0 (5, 5) none).scale = (1, 1) ∧
      ResidualBlock.reprojection 0 0
          (obs_pixel_sigma 0 (fun _ _ => 1) (obsCount witness_crn ∅ (Obs.mk 0 (5, 5) none).ipt)
            (Obs.mk 0 (5, 5) none).scale)
        ∈ (do_ba_ceres_one_pass_blocks witness_crn ∅ ∅ 1 1 1 0 0 0 (fun _ _ => 1) []).blocks) :=
  ⟨by decide, by decide, rfl, by decide,
    c9_nan_sigma_still_contributes witness_crn ∅ ∅ 1 1 1 0 0 0 (fun _ _ => 1) []
      0 [Obs.mk 0 (5, 5) none] (Obs.mk 0 (5, 5) none) (by decide) (by decide) rfl (by decide)⟩

/-- Claim C10: when `heights_from_dem` is set, every non-GCP, non-outlier
point with at least one observation has its parameter block marked
constant unconditionally; at any step where the point's DEM pixel is out
of bounds or the DEM sample is invalid, the point's coordinates are left
unchanged while the point is still held fixed. -/
theorem c10_heights_from_dem_constant (env : DemEnv) (gcpSet : Finset ℕ) (crn : Crn)
    (outlier_xyz : Finset ℕ) (points0 : ℕ → ℚ × ℚ × ℚ) :
    (∀ ipt, ipt ∈ activeObsIds crn outlier_xyz → ipt ∉ gcpSet →
      ipt ∈ (heights_from_dem_pass env gcpSet crn outlier_xyz points0).constantBlocks) ∧
    (∀ (st : HeightsFixState) (ipt : ℕ), ipt ∉ gcpSet →
      (dem_pix_in_bounds env (dem_pixel_of env (st.points ipt)) = false ∨
        env.interp_dem (dem_pixel_of env (st.points ipt)) = none) →
      (heights_from_dem_step env gcpSet st ipt).points = st.points ∧
      ipt ∈ (heights_from_dem_step env gcpSet st ipt).constantBlocks) := by
  constructor
  · intro ipt hm hg
    exact heights_pass_mem_constants env gcpSet _ _ ipt (Or.inl ⟨hm, hg⟩)
  · intro st ipt hg hbad
    rw [heights_step_bad_sample env gcpSet st ipt hg hbad]
    exact ⟨rfl, Finset.mem_insert_self _ _⟩

/-- On an empty DEM with all-invalid samples, the observed point 0 is
still marked constant. -/
theorem c10_witness :
    ((0 : ℕ) ∈ activeObsIds witness_crn ∅) ∧ ((0 : ℕ) ∉ (∅ : Finset ℕ)) ∧
    ((0 : ℕ) ∈ (heights_from_dem_pass witness_dem_env ∅ witness_crn ∅
        (fun _ => (0, 0, 0))).constantBlocks) :=
  ⟨by decide, by decide,
    (c10_heights_from_dem_constant witness_dem_env ∅ witness_crn ∅ (fun _ => (0, 0, 0))).1 0
      (by decide) (by decide)⟩
